import Mathlib

/-!
Shallow embedding of `src/pl_processRecording.py` (pl_gazeMapping).

The repository source under `src/` is the single file `pl_processRecording.py`,
holding `processRecording` (the frame loop), `processFrame` (per-frame feature
matching, pose/homography solving and gaze mapping) and `createHeatmap` (the
cumulative reference-space summary).  The gaze-mapping helper object
(`pl_gazeMappingTools.GazeMapper`: `findFeatures`, `findMatches`,
`PnP_3Dmapping`, `getCameraPosition`, `get2Dmapping`, `mapCoords2D`, `ref2obj`,
`projectImage2D`) and the density-plot rendering (seaborn/matplotlib) are not
under `src/`; they are modelled abstractly as fields of an `Ext` record, with
fallibility of the geometric solvers taken from the spec (sections 4.2 and 7:
`InsufficientCorrespondences`, `DegenerateGeometry`).

Python floats are modelled as rationals; images are pixel buffers with explicit
width/height; pandas dataframes are Lean lists of records in row order.
-/

namespace PL

/-- A 2D point (Python float pair). -/
abbrev Pt : Type := ℚ × ℚ

/-- A 3D vector. -/
abbrev Vec3 : Type := ℚ × ℚ × ℚ

/-- A homography, kept abstract as its list of entries. -/
abbrev H : Type := List ℚ

/-- Feature descriptors, kept abstract. -/
abbrev Des : Type := List ℚ

/-- A detected keypoint location. -/
abbrev Kp : Type := ℚ × ℚ

/-- An image: pixel dimensions plus an abstract pixel buffer. -/
structure Img where
  w : Nat
  h : Nat
  pix : List Int
deriving DecidableEq, Repr

/-- One row of `gazeData_world.csv` as read by `processRecording`:
timestamp, confidence, normalized position (bottom-left origin), and the
owning world-frame index. -/
structure GazeRow where
  timestamp : ℚ
  confidence : ℚ
  norm_pos_x : ℚ
  norm_pos_y : ℚ
  index : Nat
deriving DecidableEq, Repr

/-- One row of the per-frame `gazeData_df` built in `processFrame`:
a gaze sample carried through frame, reference and object coordinates. -/
structure MGP where
  gaze_ts : ℚ
  worldFrame : Nat
  confidence : ℚ
  frame_gazeX : ℚ
  frame_gazeY : ℚ
  ref_gazeX : ℚ
  ref_gazeY : ℚ
  obj_gazeX : ℚ
  obj_gazeY : ℚ
  obj_gazeZ : ℚ
deriving DecidableEq, Repr

/-- Failure of the geometric solvers (spec sections 4.2 and 7): too few
correspondences for a pose solve, or degenerate/collinear geometry. -/
inductive GeomErr where
  | insufficientCorrespondences : GeomErr
  | degenerateGeometry : GeomErr
deriving DecidableEq, Repr

/-- A run-level failure: either a solver exception that escaped the frame
loop, or the Python `NameError` raised when `gazeData_master.to_csv` runs
with `gazeData_master` never having been assigned. -/
inductive RunErr where
  | geom : GeomErr → RunErr
  | nameError : RunErr
deriving DecidableEq, Repr

/-- Modelled from the spec: the external collaborators of the core file.
`cvtGray`, `circle`, `line`, `cvtBGR2RGB` are the OpenCV raster primitives
(dimension-agnostic pixel-buffer transforms); `findFeatures` .. `projectImage2D`
are the `pl_gazeMappingTools.GazeMapper` methods (that file is not under
`src/`); `kdeCanvas` is the seaborn/matplotlib kernel-density rendering of
`createHeatmap`, which the spec puts out of scope.  The two geometric solvers
are fallible per spec 4.2/7 (`InsufficientCorrespondences`,
`DegenerateGeometry`); everything else is a pure function. -/
structure Ext where
  cvtGray : List Int → List Int
  findFeatures : Img → List Kp × Des
  findMatches : List Kp → Des → List Pt × List Pt
  PnP_3Dmapping : List Pt → List Pt → Except GeomErr (Vec3 × Vec3)
  getCameraPosition : Vec3 → Vec3 → Vec3 × Vec3
  get2Dmapping : List Pt → List Pt → Except GeomErr (H × H)
  mapCoords2D : Pt → H → Pt
  ref2obj : Pt → Vec3
  projectImage2D : Img → H → Img → Img
  refImgColor : Img
  circle : Img → Int × Int → Nat → Nat → Img
  line : Img → Int × Int → Int × Int → Nat → Img
  kdeCanvas : List MGP → Img → Img
  cvtBGR2RGB : Img → Img

/-- Python `int()` truncation toward zero applied to a rational. -/
def pyInt (q : ℚ) : Int :=
  Int.tdiv q.num (q.den : Int)

/-- `frame_gray = cv2.cvtColor(frame, cv2.COLOR_BGR2GRAY)`: grayscale
conversion transforms the pixel buffer and keeps the pixel dimensions. -/
def frameGray (ext : Ext) (frame : Img) : Img :=
  { w := frame.w, h := frame.h, pix := ext.cvtGray frame.pix }

/-- `frame_kp, frame_des = mapper.findFeatures(frame_gray)`. -/
def detectedKp (ext : Ext) (frame : Img) : List Kp × Des :=
  ext.findFeatures (frameGray ext frame)

/-- `ref_matchPts, frame_matchPts = mapper.findMatches(frame_kp, frame_des)`:
the accepted correspondences for this frame (only ever evaluated when at
least 2 keypoints were detected). -/
def acceptedMatches (ext : Ext) (frame : Img) : List Pt × List Pt :=
  ext.findMatches (detectedKp ext frame).1 (detectedKp ext frame).2

/-- The per-frame result dict `fr` of `processFrame`.  Keys that the source
stores only on some paths are `Option`-valued. -/
structure FrameResult where
  frameNum : Nat
  origFrame : Img
  frame_ts : ℚ
  gazeFrame : Img
  foundGoodMatch : Bool
  camPosition : Option Vec3
  camOrientation : Option Vec3
  ref2frame_2Dtrans : Option H
  frame2ref_2Dtrans : Option H
  gazeData : Option (List MGP)
deriving DecidableEq, Repr

/-- The dict returned when `sufficientMatches` is false: untouched frames
only, `foundGoodMatch = False`, no transforms, no gaze data. -/
def rawFrameResult (frameCounter : Nat) (origFrame : Img) (frame_ts : ℚ) : FrameResult :=
  { frameNum := frameCounter, origFrame := origFrame, frame_ts := frame_ts,
    gazeFrame := origFrame, foundGoodMatch := false,
    camPosition := none, camOrientation := none,
    ref2frame_2Dtrans := none, frame2ref_2Dtrans := none, gazeData := none }

/-- The dict returned on the good-match path: transforms and camera pose
stored, `foundGoodMatch = True`. -/
def goodFrameResult (frameCounter : Nat) (origFrame : Img) (frame_ts : ℚ)
    (gazeFrame : Img) (cam : Vec3 × Vec3) (hs : H × H)
    (gazeData : Option (List MGP)) : FrameResult :=
  { frameNum := frameCounter, origFrame := origFrame, frame_ts := frame_ts,
    gazeFrame := gazeFrame, foundGoodMatch := true,
    camPosition := some cam.1, camOrientation := some cam.2,
    ref2frame_2Dtrans := some hs.1, frame2ref_2Dtrans := some hs.2,
    gazeData := gazeData }

/-- The loop body of the gaze-data translation in `processFrame` (lines
315-339): denormalize one sample to frame pixels (with the y-axis flip from
the bottom-left-origin normalized encoding), map it to reference coordinates
through `frame2ref_2D`, then to object coordinates. -/
def mapGazeRow (ext : Ext) (frameCounter : Nat) (frame_gray : Img)
    (frame2ref_2D : H) (row : GazeRow) : MGP :=
  let frame_gazeX := row.norm_pos_x * (frame_gray.w : ℚ)
  let frame_gazeY := (frame_gray.h : ℚ) - row.norm_pos_y * (frame_gray.h : ℚ)
  let rp := ext.mapCoords2D (frame_gazeX, frame_gazeY) frame2ref_2D
  let oc := ext.ref2obj rp
  { gaze_ts := row.timestamp, worldFrame := frameCounter,
    confidence := row.confidence,
    frame_gazeX := frame_gazeX, frame_gazeY := frame_gazeY,
    ref_gazeX := rp.1, ref_gazeY := rp.2,
    obj_gazeX := oc.1, obj_gazeY := oc.2.1, obj_gazeZ := oc.2.2 }

/-- The circle-drawing loop of `processFrame` (lines 346-354): every gaze
point of the frame is marked on a copy of the original frame; the row with
the maximal index (the last row) gets the distinct larger marker. -/
def drawGazeCircles (ext : Ext) (img : Img) : List MGP → Img
  | [] => img
  | [row] => ext.circle img (pyInt row.frame_gazeX, pyInt row.frame_gazeY) 10 0
  | row :: rest =>
      drawGazeCircles ext
        (ext.circle img (pyInt row.frame_gazeX, pyInt row.frame_gazeY) 8 1) rest

/-- `processFrame` (lines 225-360).  The `try/except` of lines 253-267 is
modelled by branching: when fewer than 2 keypoints were detected the source
sets `ref_matchPts = None`, `numMatches = ref_matchPts.shape[0]` raises, the
bare `except` sets `sufficientMatches = False` and the raw-frame dict is
returned; otherwise `numMatches` is the accepted-correspondence count and
`sufficientMatches` is `numMatches > 10`.  The solver calls of lines 279 and
288 sit outside any handler in the source, so their failures surface as
`Except.error` of the whole call. -/
def processFrame (ext : Ext) (frameCounter : Nat) (frame : Img)
    (thisFrame_gazeData_world : List GazeRow) (frame_timestamps : Nat → ℚ) :
    Except GeomErr FrameResult :=
  let origFrame := frame
  let frame_ts := frame_timestamps frameCounter
  if (detectedKp ext frame).1.length < 2 then
    .ok (rawFrameResult frameCounter origFrame frame_ts)
  else
    let ref_matchPts := (acceptedMatches ext frame).1
    let frame_matchPts := (acceptedMatches ext frame).2
    if ref_matchPts.length ≤ 10 then
      .ok (rawFrameResult frameCounter origFrame frame_ts)
    else do
      let pose ← ext.PnP_3Dmapping ref_matchPts frame_matchPts
      let cam := ext.getCameraPosition pose.1 pose.2
      let hs ← ext.get2Dmapping ref_matchPts frame_matchPts
      if thisFrame_gazeData_world.length == 0 then
        .ok (goodFrameResult frameCounter origFrame frame_ts origFrame cam hs (some []))
      else
        let gazeData := thisFrame_gazeData_world.map
          (mapGazeRow ext frameCounter (frameGray ext frame) hs.2)
        let gazeFrame := drawGazeCircles ext origFrame gazeData
        .ok (goodFrameResult frameCounter origFrame frame_ts gazeFrame cam hs (some gazeData))

/-- The gaze-trace polyline of `createHeatmap` (lines 409-423), continued
from a known previous point. -/
def traceFrom (ext : Ext) (img : Img) (prev : Int × Int) : List MGP → Img
  | [] => img
  | row :: rest =>
      let cur : Int × Int := (pyInt row.ref_gazeX, pyInt row.ref_gazeY)
      traceFrom ext (ext.line img prev cur 2) cur rest

/-- The gaze-trace polyline of `createHeatmap`: the first row only sets the
starting point, each later row draws a segment from the previous point. -/
def addGazeTrace (ext : Ext) (img : Img) : List MGP → Img
  | [] => img
  | row :: rest => traceFrom ext img (pyInt row.ref_gazeX, pyInt row.ref_gazeY) rest

/-- The closing circle loop of `createHeatmap` (lines 426-434) over the rows
of the current frame: the row carrying the overall maximal index (the last
row of the filtered frame, necessarily in this sublist when it is nonempty)
gets the larger distinct marker. -/
def addLastCirclesGo (ext : Ext) (img : Img) : List MGP → Img
  | [] => img
  | [row] => ext.circle img (pyInt row.ref_gazeX, pyInt row.ref_gazeY) 10 3
  | row :: rest =>
      addLastCirclesGo ext
        (ext.circle img (pyInt row.ref_gazeX, pyInt row.ref_gazeY) 8 4) rest

/-- The closing circle loop of `createHeatmap`, restricted to the rows whose
`worldFrame` equals the current frame counter. -/
def addLastCircles (ext : Ext) (img : Img) (rows : List MGP) (frameCounter : Nat) : Img :=
  addLastCirclesGo ext img (rows.filter (fun r => r.worldFrame == frameCounter))

/-- The else-branch of `createHeatmap` (lines 383-437): render the kernel
density estimate over the reference image (external matplotlib/seaborn
canvas), overlay the gaze-trace polyline and the current-frame circles, then
convert BGR to RGB. -/
def kdeBranch (ext : Ext) (heatmap_df : List MGP) (frameCounter : Nat) (refStim : Img) : Img :=
  let heatmap := ext.kdeCanvas heatmap_df refStim
  let heatmap := addGazeTrace ext heatmap heatmap_df
  let heatmap := addLastCircles ext heatmap heatmap_df frameCounter
  ext.cvtBGR2RGB heatmap

/-- `createHeatmap` (lines 363-439): restrict the cumulative gaze log to
rows with `worldFrame <= frameCounter`; with 2 or fewer such rows return the
reference image untouched, otherwise render the density branch. -/
def createHeatmap (ext : Ext) (gazeData_master : List MGP) (frameCounter : Nat)
    (refStim : Img) : Img :=
  let heatmap_df := gazeData_master.filter (fun r => r.worldFrame ≤ frameCounter)
  if heatmap_df.length ≤ 2 then refStim
  else kdeBranch ext heatmap_df frameCounter refStim

/-- The mutable state of the frame loop of `processRecording`:
`gazeData_master` is `none` as long as the Python local of that name has
never been assigned (it is assigned only inside the good-match branch), and
each output video stream is the list of frames written to it so far. -/
structure RunState where
  gazeData_master : Option (List MGP)
  origWrites : List Img
  gazeWrites : List Img
  summaryRefWrites : List Img
  summaryWorldWrites : List Img
deriving Repr

/-- The loop state before the first frame: no stream written, the
`gazeData_master` local does not exist yet. -/
def initRunState : RunState :=
  { gazeData_master := none, origWrites := [], gazeWrites := [],
    summaryRefWrites := [], summaryWorldWrites := [] }

/-- The body of the frame loop of `processRecording` (lines 181-205) after
`processFrame` returned: on a good match, extend (or create) the cumulative
`gazeData_master`, render the reference-space heatmap and its world-space
projection; otherwise reuse the original frame for both summary streams.
Either way write one frame to each of the four output streams. -/
def handleProcessedFrame (ext : Ext) (st : RunState) (pf : FrameResult)
    (frameCounter : Nat) : RunState :=
  if pf.foundGoodMatch then
    let gazeData_master := st.gazeData_master.getD [] ++ pf.gazeData.getD []
    let gazeSummary_ref := createHeatmap ext gazeData_master frameCounter ext.refImgColor
    let mappedSummaryFrame :=
      ext.projectImage2D pf.origFrame (pf.ref2frame_2Dtrans.getD []) gazeSummary_ref
    { gazeData_master := some gazeData_master,
      origWrites := st.origWrites ++ [pf.origFrame],
      gazeWrites := st.gazeWrites ++ [pf.gazeFrame],
      summaryRefWrites := st.summaryRefWrites ++ [gazeSummary_ref],
      summaryWorldWrites := st.summaryWorldWrites ++ [mappedSummaryFrame] }
  else
    { gazeData_master := st.gazeData_master,
      origWrites := st.origWrites ++ [pf.origFrame],
      gazeWrites := st.gazeWrites ++ [pf.gazeFrame],
      summaryRefWrites := st.summaryRefWrites ++ [pf.origFrame],
      summaryWorldWrites := st.summaryWorldWrites ++ [pf.origFrame] }

/-- `thisFrame_gazeData_world = gazeWorld_df.loc[gazeWorld_df[..] == frameCounter]`. -/
def frameGaze (gazeWorld_df : List GazeRow) (frameCounter : Nat) : List GazeRow :=
  gazeWorld_df.filter (fun r => r.index == frameCounter)

/-- The frame loop of `processRecording` over the remaining frames, starting
at the given frame counter.  A solver exception out of `processFrame` aborts
the whole run (the Python loop has no handler). -/
def runFrames (ext : Ext) (gazeWorld_df : List GazeRow) (frame_timestamps : Nat → ℚ) :
    RunState → Nat → List Img → Except GeomErr RunState
  | st, _, [] => .ok st
  | st, frameCounter, frame :: rest => do
      let pf ← processFrame ext frameCounter frame (frameGaze gazeWorld_df frameCounter)
        frame_timestamps
      runFrames ext gazeWorld_df frame_timestamps
        (handleProcessedFrame ext st pf frameCounter) (frameCounter + 1) rest

/-- The observable outcome of a completed run: the persisted cumulative gaze
log, the four output streams, and the pixel dimensions the reference-space
summary stream was opened with (line 157: `refStim_dims`). -/
structure RunOutput where
  gazeData_master : List MGP
  origWrites : List Img
  gazeWrites : List Img
  summaryRefWrites : List Img
  summaryWorldWrites : List Img
  summaryRefDims : Nat × Nat
deriving DecidableEq, Repr

/-- The end-of-run persistence step (lines 209-217): release the streams
and execute `gazeData_master.to_csv(..)`; when no good-match frame ever
assigned `gazeData_master`, that line raises Python `NameError`. -/
def finishRun (ext : Ext) (st : RunState) : Except RunErr RunOutput :=
  match st.gazeData_master with
  | none => .error .nameError
  | some m =>
      .ok { gazeData_master := m,
            origWrites := st.origWrites, gazeWrites := st.gazeWrites,
            summaryRefWrites := st.summaryRefWrites,
            summaryWorldWrites := st.summaryWorldWrites,
            summaryRefDims := (ext.refImgColor.w, ext.refImgColor.h) }

/-- `processRecording` restricted to its frame loop and end-of-run
persistence (lines 160-217): run every frame in order starting at counter 0,
then persist the cumulative gaze log. -/
def processRecording (ext : Ext) (frames : List Img) (gazeWorld_df : List GazeRow)
    (frame_timestamps : Nat → ℚ) : Except RunErr RunOutput :=
  match runFrames ext gazeWorld_df frame_timestamps initRunState 0 frames with
  | .error e => .error (.geom e)
  | .ok st => finishRun ext st

/-- Default image for positional access into write streams. -/
def dImg : Img := { w := 0, h := 0, pix := [] }

/-- What one frame adds to the cumulative gaze log: its mapped gaze rows
when it was a good match, nothing otherwise (also nothing when the frame
aborts the run). -/
def frameContribution (ext : Ext) (g : List GazeRow) (ts : Nat → ℚ)
    (fc : Nat) (frame : Img) : List MGP :=
  match processFrame ext fc frame (frameGaze g fc) ts with
  | .ok r => if r.foundGoodMatch then r.gazeData.getD [] else []
  | .error _ => []

/-- Per-frame contributions of a frame list, starting at a frame counter. -/
def contributions (ext : Ext) (g : List GazeRow) (ts : Nat → ℚ) :
    Nat → List Img → List (List MGP)
  | _, [] => []
  | fc, f :: rest => frameContribution ext g ts fc f :: contributions ext g ts (fc + 1) rest

/-- The raster primitives of the rendering chain keep the pixel dimensions
of the image they draw on, and the density canvas is rasterized at the
reference image's dimensions (`createHeatmap` docstring: the heatmap is
sized according to `refStim`). -/
def dimsPreserving (ext : Ext) : Prop :=
  (∀ rows ref, (ext.kdeCanvas rows ref).w = ref.w ∧ (ext.kdeCanvas rows ref).h = ref.h) ∧
  (∀ img p q c, (ext.line img p q c).w = img.w ∧ (ext.line img p q c).h = img.h) ∧
  (∀ img p rad c, (ext.circle img p rad c).w = img.w ∧ (ext.circle img p rad c).h = img.h) ∧
  (∀ img, (ext.cvtBGR2RGB img).w = img.w ∧ (ext.cvtBGR2RGB img).h = img.h)

/-- Decidable equality of `Except` results, for evaluating concrete runs. -/
instance exceptDecEq {e a : Type} [DecidableEq e] [DecidableEq a] :
    DecidableEq (Except e a) := fun x y =>
  match x, y with
  | .error e1, .error e2 =>
      if h : e1 = e2 then .isTrue (by rw [h])
      else .isFalse (fun hc => h (Except.error.inj hc))
  | .error _, .ok _ => .isFalse (fun hc => Except.noConfusion hc)
  | .ok _, .error _ => .isFalse (fun hc => Except.noConfusion hc)
  | .ok a1, .ok a2 =>
      if h : a1 = a2 then .isTrue (by rw [h])
      else .isFalse (fun hc => h (Except.ok.inj hc))

/-! ### Concrete fixtures for witnesses and counterexamples -/

/-- A small concrete camera frame (4 by 3 pixels). -/
def imgA : Img := { w := 4, h := 3, pix := [0, 1, 2] }

/-- A small concrete reference image for the heatmap fixtures. -/
def refA : Img := { w := 1, h := 1, pix := [0] }

/-- Constant-zero frame timestamps. -/
def ts0 : Nat → ℚ := fun _ => 0

/-- `n` distinct concrete 2D points. -/
def ptsN (n : Nat) : List Pt := (List.range n).map (fun i => ((i : ℚ), 0))

/-- `n` distinct concrete keypoints. -/
def kpsN (n : Nat) : List Kp := (List.range n).map (fun i => ((i : ℚ), 1))

/-- A concrete external-collaborator record built from the given keypoints,
matches and solver outcomes; every raster primitive keeps dimensions and the
density canvas shifts every pixel by one, so it differs from its input
whenever the pixel buffer is nonempty. -/
def baseExt (kps : List Kp) (mr mf : List Pt)
    (pnp : Except GeomErr (Vec3 × Vec3)) (h2d : Except GeomErr (H × H)) : Ext :=
  { cvtGray := id,
    findFeatures := fun _ => (kps, []),
    findMatches := fun _ _ => (mr, mf),
    PnP_3Dmapping := fun _ _ => pnp,
    getCameraPosition := fun a b => (a, b),
    get2Dmapping := fun _ _ => h2d,
    mapCoords2D := fun p _ => p,
    ref2obj := fun p => (p.1, p.2, 0),
    projectImage2D := fun i _ _ => i,
    refImgColor := { w := 2, h := 2, pix := [5, 5, 5, 5] },
    circle := fun i _ _ _ => i,
    line := fun i _ _ _ => i,
    kdeCanvas := fun _ r => { w := r.w, h := r.h, pix := r.pix.map (· + 1) },
    cvtBGR2RGB := id }

/-- Fixture: 2 keypoints, 11 correspondences, both solvers succeed. -/
def ext11 : Ext :=
  baseExt (kpsN 2) (ptsN 11) (ptsN 11) (.ok ((0, 0, 0), (0, 0, 0))) (.ok ([1], [2]))

/-- Fixture: 2 keypoints, exactly 10 correspondences. -/
def ext10 : Ext :=
  baseExt (kpsN 2) (ptsN 10) (ptsN 10) (.ok ((0, 0, 0), (0, 0, 0))) (.ok ([1], [2]))

/-- Fixture: a single detected keypoint (below the matcher minimum). -/
def ext1kp : Ext :=
  baseExt (kpsN 1) (ptsN 11) (ptsN 11) (.ok ((0, 0, 0), (0, 0, 0))) (.ok ([1], [2]))

/-- Fixture: 11 correspondences but the pose solver reports degenerate
geometry. -/
def extDegenerate : Ext :=
  baseExt (kpsN 2) (ptsN 11) (ptsN 11) (.error .degenerateGeometry) (.ok ([1], [2]))

/-- The result record `processFrame ext11 0 imgA [] ts0` evaluates to. -/
def res11 : FrameResult :=
  goodFrameResult 0 imgA 0 imgA ((0, 0, 0), (0, 0, 0)) ([1], [2]) (some [])

/-- A concrete gaze sample owned by frame 0. -/
def gazeRowA : GazeRow :=
  { timestamp := 5, confidence := 1, norm_pos_x := 1/2, norm_pos_y := 1/4, index := 0 }

/-- `gazeRowA` mapped through `ext11` on `imgA`: frame x = (1/2)*4 = 2,
frame y = 3 - (1/4)*3 = 9/4, reference and object coordinates equal under
the identity-like fixture transforms. -/
def mgpA : MGP := mapGazeRow ext11 0 (frameGray ext11 imgA) [2] gazeRowA

/-- A concrete mapped gaze point on frame 0. -/
def mgp0 : MGP :=
  { gaze_ts := 0, worldFrame := 0, confidence := 0,
    frame_gazeX := 0, frame_gazeY := 0, ref_gazeX := 0, ref_gazeY := 0,
    obj_gazeX := 0, obj_gazeY := 0, obj_gazeZ := 0 }

/-- Three cumulative points on frame 0 (above the heatmap threshold). -/
def mgp3 : List MGP := [mgp0, mgp0, mgp0]

/-- The run output of `processRecording ext11 [imgA] [gazeRowA] ts0`. -/
def out4 : RunOutput :=
  { gazeData_master := [mgpA],
    origWrites := [imgA], gazeWrites := [imgA],
    summaryRefWrites := [ext11.refImgColor], summaryWorldWrites := [imgA],
    summaryRefDims := (2, 2) }

/-- The run output of `processRecording ext11 [imgA] [] ts0`. -/
def out11 : RunOutput :=
  { gazeData_master := [],
    origWrites := [imgA], gazeWrites := [imgA],
    summaryRefWrites := [ext11.refImgColor], summaryWorldWrites := [imgA],
    summaryRefDims := (2, 2) }

/-! ### Characterization lemmas for `processFrame` -/

/-- With fewer than 2 detected keypoints the matcher is skipped and the
raw-frame dict is returned. -/
theorem processFrame_few_kp (ext : Ext) (fc : Nat) (frame : Img)
    (gaze : List GazeRow) (ts : Nat → ℚ)
    (hkp : (detectedKp ext frame).1.length < 2) :
    processFrame ext fc frame gaze ts = .ok (rawFrameResult fc frame (ts fc)) := by
  unfold processFrame
  simp [hkp]

/-- With at most 10 accepted correspondences the raw-frame dict is returned. -/
theorem processFrame_insufficient (ext : Ext) (fc : Nat) (frame : Img)
    (gaze : List GazeRow) (ts : Nat → ℚ)
    (hm : (acceptedMatches ext frame).1.length ≤ 10) :
    processFrame ext fc frame gaze ts = .ok (rawFrameResult fc frame (ts fc)) := by
  unfold processFrame
  by_cases hkp : (detectedKp ext frame).1.length < 2
  · simp [hkp]
  · simp [hkp, hm]

/-- On the good path (enough keypoints, more than 10 matches, both solver
calls succeed) the full-result dict is returned, with the per-sample mapped
gaze data and the overlay frame. -/
theorem processFrame_good (ext : Ext) (fc : Nat) (frame : Img)
    (gaze : List GazeRow) (ts : Nat → ℚ) (pose : Vec3 × Vec3) (hs : H × H)
    (hkp : ¬ (detectedKp ext frame).1.length < 2)
    (hm : 10 < (acceptedMatches ext frame).1.length)
    (hp : ext.PnP_3Dmapping (acceptedMatches ext frame).1 (acceptedMatches ext frame).2 = .ok pose)
    (h2 : ext.get2Dmapping (acceptedMatches ext frame).1 (acceptedMatches ext frame).2 = .ok hs) :
    processFrame ext fc frame gaze ts =
      .ok (goodFrameResult fc frame (ts fc)
        (drawGazeCircles ext frame (gaze.map (mapGazeRow ext fc (frameGray ext frame) hs.2)))
        (ext.getCameraPosition pose.1 pose.2) hs
        (some (gaze.map (mapGazeRow ext fc (frameGray ext frame) hs.2)))) := by
  unfold processFrame
  simp only [hkp, if_false, Nat.not_lt.mp hkp]
  rw [if_neg (by omega)]
  rw [hp, h2]
  cases gaze with
  | nil => simp [drawGazeCircles, Except.bind]; rfl
  | cons a l => simp [Except.bind]; rfl

/-- A failing pose solve on the good path propagates out of `processFrame`. -/
theorem processFrame_pnp_error (ext : Ext) (fc : Nat) (frame : Img)
    (gaze : List GazeRow) (ts : Nat → ℚ) (e : GeomErr)
    (hkp : ¬ (detectedKp ext frame).1.length < 2)
    (hm : 10 < (acceptedMatches ext frame).1.length)
    (hp : ext.PnP_3Dmapping (acceptedMatches ext frame).1 (acceptedMatches ext frame).2 = .error e) :
    processFrame ext fc frame gaze ts = .error e := by
  unfold processFrame
  simp only [hkp, if_false]
  rw [if_neg (by omega)]
  rw [hp]
  rfl

/-- A failing homography solve on the good path propagates out of
`processFrame`. -/
theorem processFrame_h_error (ext : Ext) (fc : Nat) (frame : Img)
    (gaze : List GazeRow) (ts : Nat → ℚ) (pose : Vec3 × Vec3) (e : GeomErr)
    (hkp : ¬ (detectedKp ext frame).1.length < 2)
    (hm : 10 < (acceptedMatches ext frame).1.length)
    (hp : ext.PnP_3Dmapping (acceptedMatches ext frame).1 (acceptedMatches ext frame).2 = .ok pose)
    (h2 : ext.get2Dmapping (acceptedMatches ext frame).1 (acceptedMatches ext frame).2 = .error e) :
    processFrame ext fc frame gaze ts = .error e := by
  unfold processFrame
  simp only [hkp, if_false]
  rw [if_neg (by omega)]
  rw [hp, h2]
  rfl

/-- Every successful `processFrame` call stores the input frame untouched as
`origFrame`. -/
theorem processFrame_ok_origFrame (ext : Ext) (fc : Nat) (frame : Img)
    (gaze : List GazeRow) (ts : Nat → ℚ) (r : FrameResult)
    (hr : processFrame ext fc frame gaze ts = .ok r) : r.origFrame = frame := by
  by_cases hkp : (detectedKp ext frame).1.length < 2
  · rw [processFrame_few_kp ext fc frame gaze ts hkp] at hr
    cases hr
    rfl
  · by_cases hm : (acceptedMatches ext frame).1.length ≤ 10
    · rw [processFrame_insufficient ext fc frame gaze ts hm] at hr
      cases hr
      rfl
    · cases hp : ext.PnP_3Dmapping (acceptedMatches ext frame).1 (acceptedMatches ext frame).2 with
      | error e =>
          rw [processFrame_pnp_error ext fc frame gaze ts e hkp (by omega) hp] at hr
          cases hr
      | ok pose =>
          cases h2 : ext.get2Dmapping (acceptedMatches ext frame).1 (acceptedMatches ext frame).2 with
          | error e =>
              rw [processFrame_h_error ext fc frame gaze ts pose e hkp (by omega) hp h2] at hr
              cases hr
          | ok hs =>
              rw [processFrame_good ext fc frame gaze ts pose hs hkp (by omega) hp h2] at hr
              cases hr
              rfl

/-- Every successful `processFrame` call reports a good match exactly when at
least 2 keypoints were detected and the accepted-correspondence count is
strictly above 10. -/
theorem processFrame_ok_good_iff (ext : Ext) (fc : Nat) (frame : Img)
    (gaze : List GazeRow) (ts : Nat → ℚ) (r : FrameResult)
    (hr : processFrame ext fc frame gaze ts = .ok r) :
    r.foundGoodMatch = true ↔
      (2 ≤ (detectedKp ext frame).1.length ∧ 10 < (acceptedMatches ext frame).1.length) := by
  by_cases hkp : (detectedKp ext frame).1.length < 2
  · rw [processFrame_few_kp ext fc frame gaze ts hkp] at hr
    cases hr
    simp [rawFrameResult]
    omega
  · by_cases hm : (acceptedMatches ext frame).1.length ≤ 10
    · rw [processFrame_insufficient ext fc frame gaze ts hm] at hr
      cases hr
      simp [rawFrameResult]
      omega
    · cases hp : ext.PnP_3Dmapping (acceptedMatches ext frame).1 (acceptedMatches ext frame).2 with
      | error e =>
          rw [processFrame_pnp_error ext fc frame gaze ts e hkp (by omega) hp] at hr
          cases hr
      | ok pose =>
          cases h2 : ext.get2Dmapping (acceptedMatches ext frame).1 (acceptedMatches ext frame).2 with
          | error e =>
              rw [processFrame_h_error ext fc frame gaze ts pose e hkp (by omega) hp h2] at hr
              cases hr
          | ok hs =>
              rw [processFrame_good ext fc frame gaze ts pose hs hkp (by omega) hp h2] at hr
              cases hr
              simp [goodFrameResult]
              omega

/-! ### Invariants of the frame loop -/

/-- Unfolding lemma: contributions of an empty frame list. -/
theorem contributions_nil (ext : Ext) (g : List GazeRow) (ts : Nat → ℚ) (fc : Nat) :
    contributions ext g ts fc [] = [] := rfl

/-- Unfolding lemma: contributions of a nonempty frame list. -/
theorem contributions_cons (ext : Ext) (g : List GazeRow) (ts : Nat → ℚ) (fc : Nat)
    (f : Img) (rest : List Img) :
    contributions ext g ts fc (f :: rest) =
      frameContribution ext g ts fc f :: contributions ext g ts (fc + 1) rest := rfl

/-- Across the frame loop the cumulative gaze log grows by exactly the
per-frame contributions, in frame order. -/
theorem runFrames_master (ext : Ext) (g : List GazeRow) (ts : Nat → ℚ)
    (frames : List Img) : ∀ (st : RunState) (fc : Nat) (st' : RunState),
    runFrames ext g ts st fc frames = .ok st' →
    st'.gazeData_master.getD [] =
      st.gazeData_master.getD [] ++ (contributions ext g ts fc frames).flatten := by
  induction frames with
  | nil =>
      intro st fc st' h
      cases h
      simp [contributions_nil]
  | cons f rest ih =>
      intro st fc st' h
      unfold runFrames at h
      cases hpf : processFrame ext fc f (frameGaze g fc) ts with
      | error e =>
          rw [hpf] at h
          exact Except.noConfusion h
      | ok pf =>
          rw [hpf] at h
          replace h : runFrames ext g ts (handleProcessedFrame ext st pf fc) (fc + 1) rest
              = .ok st' := h
          have htail := ih (handleProcessedFrame ext st pf fc) (fc + 1) st' h
          have hcon : frameContribution ext g ts fc f =
              (if pf.foundGoodMatch then pf.gazeData.getD [] else []) := by
            unfold frameContribution
            rw [hpf]
          rw [htail, contributions_cons, List.flatten_cons, hcon]
          by_cases hgm : pf.foundGoodMatch = true
          · simp [handleProcessedFrame, hgm, List.append_assoc]
          · have hgm2 : pf.foundGoodMatch = false := by simpa using hgm
            simp [handleProcessedFrame, hgm2]

/-- When every frame of the loop completes without a good match, the loop
finishes and never assigns the cumulative-log variable. -/
theorem runFrames_allBad (ext : Ext) (g : List GazeRow) (ts : Nat → ℚ)
    (frames : List Img) : ∀ (fc : Nat) (st : RunState),
    (∀ i, i < frames.length → ∃ r,
      processFrame ext (fc + i) (frames.getD i dImg) (frameGaze g (fc + i)) ts = .ok r ∧
        r.foundGoodMatch = false) →
    ∃ st', runFrames ext g ts st fc frames = .ok st' ∧
      st'.gazeData_master = st.gazeData_master := by
  induction frames with
  | nil =>
      intro fc st _
      exact ⟨st, rfl, rfl⟩
  | cons f rest ih =>
      intro fc st hbad
      obtain ⟨r, hr, hgood⟩ := hbad 0 (by simp)
      rw [Nat.add_zero] at hr
      simp only [List.getD_cons_zero] at hr
      obtain ⟨st', hrun, hmaster⟩ := ih (fc + 1) (handleProcessedFrame ext st r fc)
        (fun i hi => by
          obtain ⟨r2, hr2, hg2⟩ := hbad (i + 1) (by simpa using Nat.succ_lt_succ hi)
          have harith : fc + (i + 1) = (fc + 1) + i := by omega
          rw [harith] at hr2
          simp only [List.getD_cons_succ] at hr2
          exact ⟨r2, hr2, hg2⟩)
      refine ⟨st', ?_, ?_⟩
      · unfold runFrames
        rw [hr]
        exact hrun
      · rw [hmaster]
        simp [handleProcessedFrame, hgood]

/-- Across the frame loop the reference-space summary stream receives
exactly one image per frame: the untouched camera frame on a no-match
frame, a `createHeatmap` rendering on a good-match frame. -/
theorem runFrames_refWrites (ext : Ext) (g : List GazeRow) (ts : Nat → ℚ)
    (frames : List Img) : ∀ (st : RunState) (fc : Nat) (st' : RunState),
    runFrames ext g ts st fc frames = .ok st' →
    ∃ ws, st'.summaryRefWrites = st.summaryRefWrites ++ ws ∧
      ws.length = frames.length ∧
      ∀ i r, i < frames.length →
        processFrame ext (fc + i) (frames.getD i dImg) (frameGaze g (fc + i)) ts = .ok r →
        (r.foundGoodMatch = false → ws.getD i dImg = frames.getD i dImg) ∧
        (r.foundGoodMatch = true →
          ∃ m, ws.getD i dImg = createHeatmap ext m (fc + i) ext.refImgColor) := by
  induction frames with
  | nil =>
      intro st fc st' h
      cases h
      refine ⟨[], (List.append_nil _).symm, rfl, ?_⟩
      intro i r hi
      simp at hi
  | cons f rest ih =>
      intro st fc st' h
      unfold runFrames at h
      cases hpf : processFrame ext fc f (frameGaze g fc) ts with
      | error e =>
          rw [hpf] at h
          exact Except.noConfusion h
      | ok pf =>
          rw [hpf] at h
          replace h : runFrames ext g ts (handleProcessedFrame ext st pf fc) (fc + 1) rest
              = .ok st' := h
          obtain ⟨ws, hws, hlen, hidx⟩ := ih (handleProcessedFrame ext st pf fc) (fc + 1) st' h
          by_cases hgm : pf.foundGoodMatch = true
          · have hh : (handleProcessedFrame ext st pf fc).summaryRefWrites =
                st.summaryRefWrites ++
                  [createHeatmap ext (st.gazeData_master.getD [] ++ pf.gazeData.getD []) fc
                    ext.refImgColor] := by
              simp [handleProcessedFrame, hgm]
            refine ⟨createHeatmap ext (st.gazeData_master.getD [] ++ pf.gazeData.getD []) fc
              ext.refImgColor :: ws, ?_, by simpa using hlen, ?_⟩
            · rw [hws, hh]
              simp
            · intro i r hi hr
              cases i with
              | zero =>
                  rw [Nat.add_zero] at hr
                  simp only [List.getD_cons_zero] at hr ⊢
                  rw [hpf] at hr
                  injection hr with hr
                  subst hr
                  refine ⟨fun hb => absurd hgm (by rw [hb]; simp), fun _ => ?_⟩
                  rw [Nat.add_zero]
                  exact ⟨_, rfl⟩
              | succ j =>
                  have hj : j < rest.length := by simpa using hi
                  have harith : fc + (j + 1) = (fc + 1) + j := by omega
                  rw [harith] at hr
                  simp only [List.getD_cons_succ] at hr ⊢
                  have hmain := hidx j r hj hr
                  refine ⟨hmain.1, fun hg => ?_⟩
                  obtain ⟨m, hm⟩ := hmain.2 hg
                  rw [harith]
                  exact ⟨m, hm⟩
          · have hgm2 : pf.foundGoodMatch = false := by simpa using hgm
            have hh : (handleProcessedFrame ext st pf fc).summaryRefWrites =
                st.summaryRefWrites ++ [pf.origFrame] := by
              simp [handleProcessedFrame, hgm2]
            refine ⟨pf.origFrame :: ws, ?_, by simpa using hlen, ?_⟩
            · rw [hws, hh]
              simp
            · intro i r hi hr
              cases i with
              | zero =>
                  rw [Nat.add_zero] at hr
                  simp only [List.getD_cons_zero] at hr ⊢
                  have horig : pf.origFrame = f :=
                    processFrame_ok_origFrame ext fc f (frameGaze g fc) ts pf hpf
                  rw [hpf] at hr
                  injection hr with hr
                  subst hr
                  exact ⟨fun _ => horig, fun hg => absurd hg (by rw [hgm2]; simp)⟩
              | succ j =>
                  have hj : j < rest.length := by simpa using hi
                  have harith : fc + (j + 1) = (fc + 1) + j := by omega
                  rw [harith] at hr
                  simp only [List.getD_cons_succ] at hr ⊢
                  have hmain := hidx j r hj hr
                  refine ⟨hmain.1, fun hg => ?_⟩
                  obtain ⟨m, hm⟩ := hmain.2 hg
                  rw [harith]
                  exact ⟨m, hm⟩

/-! ### Dimension preservation of the rendering chain -/

/-- The polyline pass keeps the image dimensions. -/
theorem traceFrom_dims (ext : Ext)
    (hline : ∀ img p q c, (ext.line img p q c).w = img.w ∧ (ext.line img p q c).h = img.h) :
    ∀ (rows : List MGP) (img : Img) (prev : Int × Int),
      (traceFrom ext img prev rows).w = img.w ∧ (traceFrom ext img prev rows).h = img.h
  | [], _, _ => ⟨rfl, rfl⟩
  | row :: rest, img, prev => by
      have h1 := hline img prev (pyInt row.ref_gazeX, pyInt row.ref_gazeY) 2
      have h2 := traceFrom_dims ext hline rest
        (ext.line img prev (pyInt row.ref_gazeX, pyInt row.ref_gazeY) 2)
        (pyInt row.ref_gazeX, pyInt row.ref_gazeY)
      exact ⟨h2.1.trans h1.1, h2.2.trans h1.2⟩

/-- The gaze-trace pass keeps the image dimensions. -/
theorem addGazeTrace_dims (ext : Ext)
    (hline : ∀ img p q c, (ext.line img p q c).w = img.w ∧ (ext.line img p q c).h = img.h)
    (rows : List MGP) (img : Img) :
    (addGazeTrace ext img rows).w = img.w ∧ (addGazeTrace ext img rows).h = img.h := by
  cases rows with
  | nil => exact ⟨rfl, rfl⟩
  | cons row rest => exact traceFrom_dims ext hline rest img _

/-- The closing circle pass keeps the image dimensions. -/
theorem addLastCirclesGo_dims (ext : Ext)
    (hcirc : ∀ img p rad c, (ext.circle img p rad c).w = img.w ∧ (ext.circle img p rad c).h = img.h) :
    ∀ (rows : List MGP) (img : Img),
      (addLastCirclesGo ext img rows).w = img.w ∧ (addLastCirclesGo ext img rows).h = img.h
  | [], _ => ⟨rfl, rfl⟩
  | [row], img => hcirc img (pyInt row.ref_gazeX, pyInt row.ref_gazeY) 10 3
  | row :: row2 :: rest, img => by
      have h1 := hcirc img (pyInt row.ref_gazeX, pyInt row.ref_gazeY) 8 4
      have h2 := addLastCirclesGo_dims ext hcirc (row2 :: rest)
        (ext.circle img (pyInt row.ref_gazeX, pyInt row.ref_gazeY) 8 4)
      exact ⟨h2.1.trans h1.1, h2.2.trans h1.2⟩

/-- With dimension-preserving raster primitives, `createHeatmap` always
returns an image at the reference image's pixel dimensions. -/
theorem createHeatmap_dims (ext : Ext) (hdim : dimsPreserving ext)
    (m : List MGP) (fc : Nat) (ref : Img) :
    (createHeatmap ext m fc ref).w = ref.w ∧ (createHeatmap ext m fc ref).h = ref.h := by
  obtain ⟨hk, hl, hc, hb⟩ := hdim
  unfold createHeatmap
  by_cases hlen : (m.filter (fun r => r.worldFrame ≤ fc)).length ≤ 2
  · simp [hlen]
  · simp only [hlen, if_false]
    unfold kdeBranch addLastCircles
    set rows := m.filter (fun r => r.worldFrame ≤ fc) with hrows
    have s1 := hk rows ref
    have s2 := addGazeTrace_dims ext hl rows (ext.kdeCanvas rows ref)
    have s3 := addLastCirclesGo_dims ext hc (rows.filter (fun r => r.worldFrame == fc))
      (addGazeTrace ext (ext.kdeCanvas rows ref) rows)
    have s4 := hb (addLastCirclesGo ext (addGazeTrace ext (ext.kdeCanvas rows ref) rows)
      (rows.filter (fun r => r.worldFrame == fc)))
    exact ⟨s4.1.trans (s3.1.trans (s2.1.trans s1.1)),
           s4.2.trans (s3.2.trans (s2.2.trans s1.2))⟩

/-- Unfolding lemma: a run whose frame loop aborts propagates the error. -/
theorem processRecording_error_run (ext : Ext) (frames : List Img)
    (g : List GazeRow) (ts : Nat → ℚ) (e : GeomErr)
    (h : runFrames ext g ts initRunState 0 frames = .error e) :
    processRecording ext frames g ts = .error (.geom e) := by
  unfold processRecording
  rw [h]

/-- Unfolding lemma: a run whose frame loop completes proceeds to the
persistence step. -/
theorem processRecording_ok_run (ext : Ext) (frames : List Img)
    (g : List GazeRow) (ts : Nat → ℚ) (st : RunState)
    (h : runFrames ext g ts initRunState 0 frames = .ok st) :
    processRecording ext frames g ts = finishRun ext st := by
  unfold processRecording
  rw [h]

/-- Unfolding lemma: persistence with the cumulative-log variable never
assigned raises `NameError`. -/
theorem finishRun_none (ext : Ext) (st : RunState)
    (h : st.gazeData_master = none) : finishRun ext st = .error .nameError := by
  unfold finishRun
  rw [h]

/-- Unfolding lemma: persistence with an assigned cumulative log returns
the run output. -/
theorem finishRun_some (ext : Ext) (st : RunState) (m : List MGP)
    (h : st.gazeData_master = some m) :
    finishRun ext st =
      .ok { gazeData_master := m,
            origWrites := st.origWrites, gazeWrites := st.gazeWrites,
            summaryRefWrites := st.summaryRefWrites,
            summaryWorldWrites := st.summaryWorldWrites,
            summaryRefDims := (ext.refImgColor.w, ext.refImgColor.h) } := by
  unfold finishRun
  rw [h]

/-! ### Claim theorems -/

/-- C1 counterexample: a concrete frame with 11 accepted correspondences on
which the pose solver fails with degenerate geometry; `processFrame`
surfaces the solver exception to its caller instead of returning a
raw-frame-only result with `foundGoodMatch = false`. -/
theorem processFrame_solverFailure_cex :
    10 < (acceptedMatches extDegenerate imgA).1.length ∧
    extDegenerate.PnP_3Dmapping (acceptedMatches extDegenerate imgA).1
      (acceptedMatches extDegenerate imgA).2 = .error .degenerateGeometry ∧
    processFrame extDegenerate 0 imgA [] ts0 = .error .degenerateGeometry :=
  ⟨by decide, rfl, rfl⟩

/-- C1 (amended): for a frame whose accepted-correspondence count exceeds
10, when the pose or homography solver fails, `processFrame` propagates the
solver's exception to its caller (only the correspondence-count check sits
inside a handler); the frame is not downgraded to a raw-frame-only result. -/
theorem processFrame_solverFailure_propagates (ext : Ext) (fc : Nat) (frame : Img)
    (gaze : List GazeRow) (ts : Nat → ℚ) (e : GeomErr)
    (hkp : 2 ≤ (detectedKp ext frame).1.length)
    (hm : 10 < (acceptedMatches ext frame).1.length)
    (hsolver : ext.PnP_3Dmapping (acceptedMatches ext frame).1 (acceptedMatches ext frame).2
        = .error e ∨
      (∃ pose, ext.PnP_3Dmapping (acceptedMatches ext frame).1 (acceptedMatches ext frame).2
          = .ok pose ∧
        ext.get2Dmapping (acceptedMatches ext frame).1 (acceptedMatches ext frame).2
          = .error e)) :
    processFrame ext fc frame gaze ts = .error e := by
  rcases hsolver with hp | ⟨pose, hp, h2⟩
  · exact processFrame_pnp_error ext fc frame gaze ts e (by omega) hm hp
  · exact processFrame_h_error ext fc frame gaze ts pose e (by omega) hm hp h2

/-- C2: on a frame where the matcher ran (at least 2 keypoints), every
returned result has `foundGoodMatch = true` exactly when the accepted
correspondence count is strictly greater than 10; at 10 or fewer the result
is the raw-frame dict: `foundGoodMatch = false`, the untouched original
imagery, and no mapped gaze data. -/
theorem processFrame_matchThreshold (ext : Ext) (fc : Nat) (frame : Img)
    (gaze : List GazeRow) (ts : Nat → ℚ)
    (hkp : 2 ≤ (detectedKp ext frame).1.length) :
    (∀ r, processFrame ext fc frame gaze ts = .ok r →
       (r.foundGoodMatch = true ↔ 10 < (acceptedMatches ext frame).1.length)) ∧
    ((acceptedMatches ext frame).1.length ≤ 10 →
       processFrame ext fc frame gaze ts = .ok (rawFrameResult fc frame (ts fc)) ∧
       (rawFrameResult fc frame (ts fc)).foundGoodMatch = false ∧
       (rawFrameResult fc frame (ts fc)).gazeFrame = frame ∧
       (rawFrameResult fc frame (ts fc)).gazeData = none) := by
  constructor
  · intro r hr
    rw [processFrame_ok_good_iff ext fc frame gaze ts r hr]
    exact ⟨fun h => h.2, fun h => ⟨hkp, h⟩⟩
  · intro hm
    exact ⟨processFrame_insufficient ext fc frame gaze ts hm, rfl, rfl, rfl⟩

/-- C3: on a frame with fewer than 2 detected keypoints, `processFrame`
returns the raw-frame dict with `foundGoodMatch = false`, and its result
does not depend on the matcher at all (replacing `findMatches` by any other
function leaves the result unchanged): no match attempt is made. -/
theorem processFrame_fewKeypoints_noMatchAttempt (ext : Ext) (fc : Nat) (frame : Img)
    (gaze : List GazeRow) (ts : Nat → ℚ)
    (hkp : (detectedKp ext frame).1.length < 2) :
    processFrame ext fc frame gaze ts = .ok (rawFrameResult fc frame (ts fc)) ∧
    (rawFrameResult fc frame (ts fc)).foundGoodMatch = false ∧
    ∀ fm, processFrame { ext with findMatches := fm } fc frame gaze ts =
      processFrame ext fc frame gaze ts := by
  refine ⟨processFrame_few_kp ext fc frame gaze ts hkp, rfl, fun fm => ?_⟩
  rw [processFrame_few_kp ext fc frame gaze ts hkp]
  exact processFrame_few_kp { ext with findMatches := fm } fc frame gaze ts hkp

/-- C4: after a completed run the cumulative gaze log is exactly the
in-frame-order concatenation of the mapped-gaze lists of the good-match
frames, hence its length is the sum of their per-frame counts, and every
frame without a good match contributes the empty list. -/
theorem gazeLog_appendOnly (ext : Ext) (frames : List Img) (g : List GazeRow)
    (ts : Nat → ℚ) (out : RunOutput)
    (hout : processRecording ext frames g ts = .ok out) :
    out.gazeData_master = (contributions ext g ts 0 frames).flatten ∧
    out.gazeData_master.length = ((contributions ext g ts 0 frames).map List.length).sum ∧
    (∀ fc f r, processFrame ext fc f (frameGaze g fc) ts = .ok r →
       r.foundGoodMatch = false → frameContribution ext g ts fc f = []) := by
  cases hrun : runFrames ext g ts initRunState 0 frames with
  | error e =>
      rw [processRecording_error_run ext frames g ts e hrun] at hout
      exact Except.noConfusion hout
  | ok st =>
      rw [processRecording_ok_run ext frames g ts st hrun] at hout
      cases hmas : st.gazeData_master with
      | none =>
          rw [finishRun_none ext st hmas] at hout
          exact Except.noConfusion hout
      | some m =>
          rw [finishRun_some ext st m hmas] at hout
          injection hout with hout
          have hmaster := runFrames_master ext g ts frames initRunState 0 st hrun
          rw [hmas] at hmaster
          simp only [initRunState, Option.getD_some, Option.getD_none,
            List.nil_append] at hmaster
          have h1 : out.gazeData_master = (contributions ext g ts 0 frames).flatten := by
            rw [← hout]
            exact hmaster
          refine ⟨h1, ?_, ?_⟩
          · rw [h1]
            exact List.length_flatten _
          · intro fc f r hr hgood
            unfold frameContribution
            rw [hr]
            show (if r.foundGoodMatch = true then r.gazeData.getD [] else []) = []
            rw [hgood]
            simp

/-- C5: `createHeatmap` first restricts the cumulative log to rows with
frame index at most the current frame; with 0, 1 or 2 such rows it returns
the bare reference image pixel-identically, and with 3 or more it renders
the kernel-density branch over exactly the restricted rows, so (whenever
that rendering differs from the bare reference image) the output differs
from the bare reference image. -/
theorem createHeatmap_pointThreshold (ext : Ext) (master : List MGP) (fc : Nat)
    (refStim : Img)
    (hdiff : ∀ rows, 3 ≤ rows.length → kdeBranch ext rows fc refStim ≠ refStim) :
    ((master.filter (fun r => r.worldFrame ≤ fc)).length ≤ 2 →
       createHeatmap ext master fc refStim = refStim) ∧
    (3 ≤ (master.filter (fun r => r.worldFrame ≤ fc)).length →
       createHeatmap ext master fc refStim =
         kdeBranch ext (master.filter (fun r => r.worldFrame ≤ fc)) fc refStim ∧
       createHeatmap ext master fc refStim ≠ refStim) := by
  constructor
  · intro hle
    unfold createHeatmap
    simp only [hle, if_true]
  · intro hge
    have hne : ¬ (master.filter (fun r => r.worldFrame ≤ fc)).length ≤ 2 := by omega
    have heq : createHeatmap ext master fc refStim =
        kdeBranch ext (master.filter (fun r => r.worldFrame ≤ fc)) fc refStim := by
      unfold createHeatmap
      simp only [hne, if_false]
    refine ⟨heq, ?_⟩
    rw [heq]
    exact hdiff _ hge

/-- C6: a frame on the good-match path with zero gaze samples returns
normally with an empty mapped gaze set (`some []`, not an error), keeps
`foundGoodMatch = true`, and the frame-loop step still routes it through
the heatmap branch (appending a `createHeatmap` rendering to the
reference-space summary stream). -/
theorem processFrame_emptyGaze_goodMatch (ext : Ext) (fc : Nat) (frame : Img)
    (ts : Nat → ℚ) (pose : Vec3 × Vec3) (hs : H × H) (st : RunState)
    (hkp : 2 ≤ (detectedKp ext frame).1.length)
    (hm : 10 < (acceptedMatches ext frame).1.length)
    (hp : ext.PnP_3Dmapping (acceptedMatches ext frame).1 (acceptedMatches ext frame).2
        = .ok pose)
    (h2 : ext.get2Dmapping (acceptedMatches ext frame).1 (acceptedMatches ext frame).2
        = .ok hs) :
    processFrame ext fc frame [] ts =
      .ok (goodFrameResult fc frame (ts fc) frame (ext.getCameraPosition pose.1 pose.2) hs
        (some [])) ∧
    (goodFrameResult fc frame (ts fc) frame (ext.getCameraPosition pose.1 pose.2) hs
      (some [])).foundGoodMatch = true ∧
    (goodFrameResult fc frame (ts fc) frame (ext.getCameraPosition pose.1 pose.2) hs
      (some [])).gazeData = some [] ∧
    (handleProcessedFrame ext st
      (goodFrameResult fc frame (ts fc) frame (ext.getCameraPosition pose.1 pose.2) hs
        (some [])) fc).summaryRefWrites =
      st.summaryRefWrites ++
        [createHeatmap ext (st.gazeData_master.getD []) fc ext.refImgColor] := by
  refine ⟨?_, rfl, rfl, ?_⟩
  · have hg := processFrame_good ext fc frame [] ts pose hs (by omega) hm hp h2
    simpa [drawGazeCircles] using hg
  · simp [handleProcessedFrame, goodFrameResult]

/-- C7: on the good-match path the mapped gaze data is exactly the
input-order map of `mapGazeRow` over the frame's gaze samples, and
`mapGazeRow` denormalizes each sample as frame pixel x = norm_x * width and
frame pixel y = height - norm_y * height (the y-axis flip from the
bottom-left-origin normalized encoding). -/
theorem processFrame_denormalization (ext : Ext) (fc : Nat) (frame : Img)
    (gaze : List GazeRow) (ts : Nat → ℚ) (pose : Vec3 × Vec3) (hs : H × H)
    (row : GazeRow)
    (hkp : 2 ≤ (detectedKp ext frame).1.length)
    (hm : 10 < (acceptedMatches ext frame).1.length)
    (hp : ext.PnP_3Dmapping (acceptedMatches ext frame).1 (acceptedMatches ext frame).2
        = .ok pose)
    (h2 : ext.get2Dmapping (acceptedMatches ext frame).1 (acceptedMatches ext frame).2
        = .ok hs) :
    processFrame ext fc frame gaze ts =
      .ok (goodFrameResult fc frame (ts fc)
        (drawGazeCircles ext frame (gaze.map (mapGazeRow ext fc (frameGray ext frame) hs.2)))
        (ext.getCameraPosition pose.1 pose.2) hs
        (some (gaze.map (mapGazeRow ext fc (frameGray ext frame) hs.2)))) ∧
    (mapGazeRow ext fc (frameGray ext frame) hs.2 row).frame_gazeX
        = row.norm_pos_x * (frame.w : ℚ) ∧
    (mapGazeRow ext fc (frameGray ext frame) hs.2 row).frame_gazeY
        = (frame.h : ℚ) - row.norm_pos_y * (frame.h : ℚ) :=
  ⟨processFrame_good ext fc frame gaze ts pose hs (by omega) hm hp h2, rfl, rfl⟩

/-- C8: `processFrame` is deterministic: two successful runs on identical
inputs return the same `foundGoodMatch` flag, the same mapped gaze data,
the same overlay pixel content, and indeed identical result records (the
solver is a fixed function of its inputs in this model, matching the spec's
determinism-modulo-documented-sampling clause). -/
theorem processFrame_deterministic (ext : Ext) (fc : Nat) (frame : Img)
    (gaze : List GazeRow) (ts : Nat → ℚ) (r1 r2 : FrameResult)
    (h1 : processFrame ext fc frame gaze ts = .ok r1)
    (h2 : processFrame ext fc frame gaze ts = .ok r2) :
    r1.foundGoodMatch = r2.foundGoodMatch ∧ r1.gazeData = r2.gazeData ∧
    r1.gazeFrame = r2.gazeFrame ∧ r1 = r2 := by
  rw [h1] at h2
  injection h2 with h2
  subst h2
  exact ⟨rfl, rfl, rfl, rfl⟩

/-- C9: when no frame of the run ever reaches `foundGoodMatch = true`, the
end-of-run persistence line `gazeData_master.to_csv(..)` reads a variable
that was never assigned, so the run aborts with `NameError` instead of
completing with an empty cumulative log. -/
theorem processRecording_noGoodMatch_aborts (ext : Ext) (frames : List Img)
    (g : List GazeRow) (ts : Nat → ℚ)
    (hbad : ∀ i, i < frames.length → ∃ r,
      processFrame ext i (frames.getD i dImg) (frameGaze g i) ts = .ok r ∧
        r.foundGoodMatch = false) :
    processRecording ext frames g ts = .error .nameError := by
  obtain ⟨st', hrun, hm⟩ := runFrames_allBad ext g ts frames 0 initRunState
    (fun i hi => by simpa using hbad i hi)
  rw [processRecording_ok_run ext frames g ts st' hrun]
  exact finishRun_none ext st' hm

/-- C10: in a completed run, the reference-space summary stream is opened
with the reference image's pixel dimensions, receives exactly one image per
processed frame, and that image is the untouched camera frame (at camera
resolution) whenever the frame had no good match, while good-match frames
receive a `createHeatmap` rendering sized to the reference image (given
dimension-preserving raster primitives). -/
theorem summaryRef_streamMismatch (ext : Ext) (frames : List Img) (g : List GazeRow)
    (ts : Nat → ℚ) (out : RunOutput)
    (hout : processRecording ext frames g ts = .ok out)
    (hdim : dimsPreserving ext) :
    out.summaryRefDims = (ext.refImgColor.w, ext.refImgColor.h) ∧
    out.summaryRefWrites.length = frames.length ∧
    ∀ i r, i < frames.length →
      processFrame ext i (frames.getD i dImg) (frameGaze g i) ts = .ok r →
      (r.foundGoodMatch = false →
        out.summaryRefWrites.getD i dImg = frames.getD i dImg) ∧
      (r.foundGoodMatch = true →
        (out.summaryRefWrites.getD i dImg).w = ext.refImgColor.w ∧
        (out.summaryRefWrites.getD i dImg).h = ext.refImgColor.h) := by
  cases hrun : runFrames ext g ts initRunState 0 frames with
  | error e =>
      rw [processRecording_error_run ext frames g ts e hrun] at hout
      exact Except.noConfusion hout
  | ok st =>
      rw [processRecording_ok_run ext frames g ts st hrun] at hout
      cases hmas : st.gazeData_master with
      | none =>
          rw [finishRun_none ext st hmas] at hout
          exact Except.noConfusion hout
      | some m =>
          rw [finishRun_some ext st m hmas] at hout
          injection hout with hout
          obtain ⟨ws, hws, hlen, hidx⟩ := runFrames_refWrites ext g ts frames
            initRunState 0 st hrun
          simp only [initRunState, List.nil_append] at hws
          have hsrw : out.summaryRefWrites = ws := by
            rw [← hout]
            exact hws
          refine ⟨by rw [← hout], by rw [hsrw]; exact hlen, ?_⟩
          intro i r hi hr
          have hr0 : processFrame ext (0 + i) (frames.getD i dImg)
              (frameGaze g (0 + i)) ts = .ok r := by
            simpa using hr
          have hmain := hidx i r hi hr0
          constructor
          · intro hb
            rw [hsrw]
            exact hmain.1 hb
          · intro hg
            obtain ⟨mm, hmm⟩ := hmain.2 hg
            have hd := createHeatmap_dims ext hdim mm (0 + i) ext.refImgColor
            rw [hsrw, hmm]
            exact hd

/-! ### Witnesses -/

/-- A line primitive that returns its image unchanged makes the polyline
pass the identity. -/
theorem traceFrom_id (ext : Ext) (hline : ∀ img p q c, ext.line img p q c = img) :
    ∀ (rows : List MGP) (img : Img) (prev : Int × Int), traceFrom ext img prev rows = img
  | [], _, _ => rfl
  | row :: rest, img, prev => by
      show traceFrom ext (ext.line img prev (pyInt row.ref_gazeX, pyInt row.ref_gazeY) 2)
        (pyInt row.ref_gazeX, pyInt row.ref_gazeY) rest = img
      rw [hline]
      exact traceFrom_id ext hline rest img _

/-- A line primitive that returns its image unchanged makes the gaze-trace
pass the identity. -/
theorem addGazeTrace_id (ext : Ext) (hline : ∀ img p q c, ext.line img p q c = img)
    (rows : List MGP) (img : Img) : addGazeTrace ext img rows = img := by
  cases rows with
  | nil => rfl
  | cons row rest => exact traceFrom_id ext hline rest img _

/-- A circle primitive that returns its image unchanged makes the closing
circle pass the identity. -/
theorem addLastCirclesGo_id (ext : Ext)
    (hcirc : ∀ img p rad c, ext.circle img p rad c = img) :
    ∀ (rows : List MGP) (img : Img), addLastCirclesGo ext img rows = img
  | [], _ => rfl
  | [row], img => hcirc img (pyInt row.ref_gazeX, pyInt row.ref_gazeY) 10 3
  | row :: row2 :: rest, img => by
      unfold addLastCirclesGo
      rw [hcirc]
      exact addLastCirclesGo_id ext hcirc (row2 :: rest) img

/-- On the `ext11` fixture the density branch always differs from the bare
reference image `refA` (the canvas shifts every pixel). -/
theorem hdiffHeat : ∀ rows : List MGP, 3 ≤ rows.length →
    kdeBranch ext11 rows 0 refA ≠ refA := by
  intro rows h3
  show ext11.cvtBGR2RGB (addLastCirclesGo ext11
    (addGazeTrace ext11 (ext11.kdeCanvas rows refA) rows)
    (rows.filter (fun r => r.worldFrame == 0))) ≠ refA
  rw [addGazeTrace_id ext11 (fun _ _ _ _ => rfl),
    addLastCirclesGo_id ext11 (fun _ _ _ _ => rfl)]
  show ({ w := 1, h := 1, pix := [1] } : Img) ≠ refA
  decide

/-- All raster primitives of the `ext11` fixture preserve dimensions. -/
theorem dimsPres11 : dimsPreserving ext11 :=
  ⟨fun _ _ => ⟨rfl, rfl⟩, fun _ _ _ _ => ⟨rfl, rfl⟩,
   fun _ _ _ _ => ⟨rfl, rfl⟩, fun _ => ⟨rfl, rfl⟩⟩

/-- Witness for the amended C1 theorem at the concrete degenerate fixture. -/
theorem processFrame_solverFailure_propagates_witness :
    (2 ≤ (detectedKp extDegenerate imgA).1.length ∧
     10 < (acceptedMatches extDegenerate imgA).1.length) ∧
    processFrame extDegenerate 0 imgA [] ts0 = .error .degenerateGeometry :=
  ⟨⟨by decide, by decide⟩,
   processFrame_solverFailure_propagates extDegenerate 0 imgA [] ts0 .degenerateGeometry
     (by decide) (by decide) (Or.inl rfl)⟩

/-- Witness for the C2 theorem: the 10-match boundary gives the raw-frame
dict, the 11-match boundary a `foundGoodMatch = true` result. -/
theorem processFrame_matchThreshold_witness :
    (2 ≤ (detectedKp ext10 imgA).1.length ∧ (acceptedMatches ext10 imgA).1.length ≤ 10) ∧
    (processFrame ext10 0 imgA [] ts0 = .ok (rawFrameResult 0 imgA (ts0 0)) ∧
     (rawFrameResult 0 imgA (ts0 0)).foundGoodMatch = false ∧
     (rawFrameResult 0 imgA (ts0 0)).gazeFrame = imgA ∧
     (rawFrameResult 0 imgA (ts0 0)).gazeData = none) ∧
    (res11.foundGoodMatch = true ↔ 10 < (acceptedMatches ext11 imgA).1.length) :=
  ⟨⟨by decide, by decide⟩,
   (processFrame_matchThreshold ext10 0 imgA [] ts0 (by decide)).2 (by decide),
   (processFrame_matchThreshold ext11 0 imgA [] ts0 (by decide)).1 res11 rfl⟩

/-- Witness for the C3 theorem at the one-keypoint fixture. -/
theorem processFrame_fewKeypoints_witness :
    (detectedKp ext1kp imgA).1.length < 2 ∧
    processFrame ext1kp 0 imgA [] ts0 = .ok (rawFrameResult 0 imgA (ts0 0)) :=
  ⟨by decide, (processFrame_fewKeypoints_noMatchAttempt ext1kp 0 imgA [] ts0 (by decide)).1⟩

/-- Witness for the C4 theorem on a one-frame run whose single frame is a
good match carrying one gaze sample. -/
theorem gazeLog_appendOnly_witness :
    out4.gazeData_master = (contributions ext11 [gazeRowA] ts0 0 [imgA]).flatten ∧
    out4.gazeData_master.length =
      ((contributions ext11 [gazeRowA] ts0 0 [imgA]).map List.length).sum :=
  ⟨(gazeLog_appendOnly ext11 [imgA] [gazeRowA] ts0 out4 rfl).1,
   (gazeLog_appendOnly ext11 [imgA] [gazeRowA] ts0 out4 rfl).2.1⟩

/-- Witness for the C5 theorem with three cumulative points. -/
theorem createHeatmap_pointThreshold_witness :
    3 ≤ (mgp3.filter (fun r => r.worldFrame ≤ 0)).length ∧
    (createHeatmap ext11 mgp3 0 refA =
       kdeBranch ext11 (mgp3.filter (fun r => r.worldFrame ≤ 0)) 0 refA ∧
     createHeatmap ext11 mgp3 0 refA ≠ refA) :=
  ⟨by decide, (createHeatmap_pointThreshold ext11 mgp3 0 refA hdiffHeat).2 (by decide)⟩

/-- Witness for the C6 theorem on the good-match fixture with no gaze
samples. -/
theorem processFrame_emptyGaze_witness :
    processFrame ext11 0 imgA [] ts0 =
      .ok (goodFrameResult 0 imgA (ts0 0) imgA
        (ext11.getCameraPosition (0, 0, 0) (0, 0, 0)) ([1], [2]) (some [])) ∧
    (goodFrameResult 0 imgA (ts0 0) imgA
      (ext11.getCameraPosition (0, 0, 0) (0, 0, 0)) ([1], [2]) (some [])).foundGoodMatch
        = true ∧
    (goodFrameResult 0 imgA (ts0 0) imgA
      (ext11.getCameraPosition (0, 0, 0) (0, 0, 0)) ([1], [2]) (some [])).gazeData
        = some [] ∧
    (handleProcessedFrame ext11 initRunState
      (goodFrameResult 0 imgA (ts0 0) imgA
        (ext11.getCameraPosition (0, 0, 0) (0, 0, 0)) ([1], [2]) (some [])) 0).summaryRefWrites =
      initRunState.summaryRefWrites ++
        [createHeatmap ext11 (initRunState.gazeData_master.getD []) 0 ext11.refImgColor] :=
  processFrame_emptyGaze_goodMatch ext11 0 imgA ts0 ((0, 0, 0), (0, 0, 0)) ([1], [2])
    initRunState (by decide) (by decide) rfl rfl

/-- Witness for the C7 theorem at a concrete gaze sample: x = (1/2)*4,
y = 3 - (1/4)*3. -/
theorem processFrame_denormalization_witness :
    processFrame ext11 0 imgA [gazeRowA] ts0 =
      .ok (goodFrameResult 0 imgA (ts0 0)
        (drawGazeCircles ext11 imgA
          ([gazeRowA].map (mapGazeRow ext11 0 (frameGray ext11 imgA) [2])))
        (ext11.getCameraPosition (0, 0, 0) (0, 0, 0)) ([1], [2])
        (some ([gazeRowA].map (mapGazeRow ext11 0 (frameGray ext11 imgA) [2])))) ∧
    (mapGazeRow ext11 0 (frameGray ext11 imgA) [2] gazeRowA).frame_gazeX
        = gazeRowA.norm_pos_x * (imgA.w : ℚ) ∧
    (mapGazeRow ext11 0 (frameGray ext11 imgA) [2] gazeRowA).frame_gazeY
        = (imgA.h : ℚ) - gazeRowA.norm_pos_y * (imgA.h : ℚ) :=
  processFrame_denormalization ext11 0 imgA [gazeRowA] ts0 ((0, 0, 0), (0, 0, 0)) ([1], [2])
    gazeRowA (by decide) (by decide) rfl rfl

/-- Witness for the C8 theorem at the concrete good-match fixture. -/
theorem processFrame_deterministic_witness :
    res11.foundGoodMatch = res11.foundGoodMatch ∧ res11.gazeData = res11.gazeData ∧
    res11.gazeFrame = res11.gazeFrame ∧ res11 = res11 :=
  processFrame_deterministic ext11 0 imgA [] ts0 res11 res11 rfl rfl

/-- Witness for the C9 theorem: a one-frame run at the 10-match boundary
ends in `NameError`. -/
theorem processRecording_noGoodMatch_witness :
    processRecording ext10 [imgA] [] ts0 = .error .nameError :=
  processRecording_noGoodMatch_aborts ext10 [imgA] [] ts0 (by
    intro i hi
    simp only [List.length_cons, List.length_nil] at hi
    have hi0 : i = 0 := by omega
    subst hi0
    exact ⟨rawFrameResult 0 imgA (ts0 0), rfl, rfl⟩)

/-- Witness for the C10 theorem on the one-good-frame run. -/
theorem summaryRef_streamMismatch_witness :
    out11.summaryRefDims = (ext11.refImgColor.w, ext11.refImgColor.h) ∧
    out11.summaryRefWrites.length = [imgA].length ∧
    ((out11.summaryRefWrites.getD 0 dImg).w = ext11.refImgColor.w ∧
     (out11.summaryRefWrites.getD 0 dImg).h = ext11.refImgColor.h) :=
  have h := summaryRef_streamMismatch ext11 [imgA] [] ts0 out11 rfl dimsPres11
  ⟨h.1, h.2.1, (h.2.2 0 res11 (by decide) rfl).2 rfl⟩

end PL
